import Mathlib

/-! Verification of the FemPosDeviationSqpOsqpInterface path smoother
(modules/planning/math/discretized_points_smoothing/fem_pos_deviation_sqp_osqp_interface.cc).

The C++ class builds a quadratic program from reference points and per-point
bound radii and solves it repeatedly in an SQP loop on top of the OSQP solver.
The embedding below models the matrix construction exactly: rationals stand
for the c_float doubles, Int stands for c_int (row indices can go negative in
one of the kernel loops), and lists stand for the std::vector buffers.  The
external OSQP solver is treated as an oracle: a function from the index of
the solve call to the status, objective value, and primal solution vector it
reports.  Fatal glog CHECK assertions are modelled as Option.none, and the
while loop of Solve, whose counter the source never increments, is run on
explicit fuel: a Solve result of none means the loop has not terminated
within that amount of fuel. -/

namespace FemPosSmoother

/-- Result reported by one OSQP solve call: info->status_val, info->obj_val
and the primal solution vector (modelled as a function from index to value,
mirroring reads of solution->x at in-range indices). -/
structure OsqpResult where
  status : Int
  obj_val : ℚ
  sol : Nat → ℚ

/-- Outcome of FemPosDeviationSqpOsqpInterface::Solve.  invalidInput covers
the four early sanity-check returns; checkFailure models a fatal CHECK abort
inside CalculateKernel; solveFailed is the false return after a failed OSQP
call; notConverged is the false return after the loop condition fails without
the tolerance having been met; success carries the extracted x_ and y_. -/
inductive SolveOutcome where
  | invalidInput
  | checkFailure
  | solveFailed
  | notConverged
  | success (xs ys : List ℚ)
deriving DecidableEq

/-- The member fields of FemPosDeviationSqpOsqpInterface that the modelled
code reads (solver pass-through settings such as max_iter_ or time_limit_
go to the oracle-modelled OSQP and are omitted). -/
structure SqpParams where
  ref_points : List (ℚ × ℚ)
  bounds_around_refs : List ℚ
  weight_fem_pos_deviation : ℚ
  weight_path_length : ℚ
  weight_ref_deviation : ℚ
  weight_curvature_constraint_slack_var : ℚ
  sqp_max_iter : Nat
  sqp_jtol : ℚ

/-- std::numeric_limits of int, max(): the sanity check compares
ref_points_.size() against it (32-bit int). -/
def intMax : Nat := 2147483647

/-- columns[i].emplace_back(row, value) on the per-column entry lists used
by CalculateKernel. -/
def appendAt (cols : List (List (Int × ℚ))) (i : Nat) (e : Int × ℚ) :
    List (List (Int × ℚ)) := cols.set i (cols.getD i [] ++ [e])

/-- First kernel loop of CalculateKernel (lines 205-210): the two columns of
the first point get the diagonal entry wf + wl + wr. -/
def kernelEndCol (wf wl wr : ℚ) (s : List (List (Int × ℚ)) × Nat) (col : Nat) :
    List (List (Int × ℚ)) × Nat :=
  (appendAt s.1 col ((col : Int), wf + wl + wr), s.2 + 1)

/-- Second kernel loop (lines 212-219): columns 2 and 3 get an off-diagonal
entry two rows up and the diagonal entry 5 wf + 2 wl + wr. -/
def kernelSecondCol (wf wl wr : ℚ) (s : List (List (Int × ℚ)) × Nat) (col : Nat) :
    List (List (Int × ℚ)) × Nat :=
  (appendAt (appendAt s.1 col ((col : Int) - 2, -2 * wf - wl))
    col ((col : Int), 5 * wf + 2 * wl + wr), s.2 + 1)

/-- One column of the interior-point loop (lines 225-235): entries four rows
up, two rows up, and on the diagonal. -/
def kernelInteriorCol (wf wl wr : ℚ) (s : List (List (Int × ℚ)) × Nat) (ci : Nat) :
    List (List (Int × ℚ)) × Nat :=
  (appendAt (appendAt (appendAt s.1 ci ((ci : Int) - 4, wf))
      ci ((ci : Int) - 2, -4 * wf - wl))
    ci ((ci : Int), 6 * wf + 2 * wl + wr), s.2 + 1)

/-- The interior loop body for one point_index p: the inner loop with the
col_index += col quirk touches columns 2 p and 2 p + 1. -/
def kernelInteriorPoint (wf wl wr : ℚ) (s : List (List (Int × ℚ)) × Nat) (p : Nat) :
    List (List (Int × ℚ)) × Nat :=
  kernelInteriorCol wf wl wr (kernelInteriorCol wf wl wr s (2 * p)) (2 * p + 1)

/-- Second-from-last point loop (lines 240-249). -/
def kernelSecondLastCol (wf wl wr : ℚ) (s : List (List (Int × ℚ)) × Nat) (col : Nat) :
    List (List (Int × ℚ)) × Nat :=
  (appendAt (appendAt (appendAt s.1 col ((col : Int) - 4, wf))
      col ((col : Int) - 2, -4 * wf - wl))
    col ((col : Int), 5 * wf + 2 * wl + wr), s.2 + 1)

/-- Last point loop (lines 251-260). -/
def kernelLastCol (wf wl wr : ℚ) (s : List (List (Int × ℚ)) × Nat) (col : Nat) :
    List (List (Int × ℚ)) × Nat :=
  (appendAt (appendAt (appendAt s.1 col ((col : Int) - 4, wf))
      col ((col : Int) - 2, -2 * wf - wl))
    col ((col : Int), wf + wl + wr), s.2 + 1)

/-- The five column-building loops of CalculateKernel, producing the
per-column entry lists and the emitted-column counter col_num.  The loop
ranges are exactly those of the source: columns 0..1, 2..3, the interior
columns for point_index in [2, num_of_points - 2), columns
num_of_pos_variables - 4 .. num_of_pos_variables - 3, and columns
num_of_pos_variables - 2 .. num_of_pos_variables - 1. -/
def kernelColumns (N : Nat) (wf wl wr : ℚ) : List (List (Int × ℚ)) × Nat :=
  let s0 : List (List (Int × ℚ)) × Nat := (List.replicate (3 * N - 2) [], 0)
  let s1 := (List.range' 0 2).foldl (kernelEndCol wf wl wr) s0
  let s2 := (List.range' 2 2).foldl (kernelSecondCol wf wl wr) s1
  let s3 := (List.range' 2 ((N - 2) - 2)).foldl (kernelInteriorPoint wf wl wr) s2
  let s4 := (List.range' (2 * N - 4) 2).foldl (kernelSecondLastCol wf wl wr) s3
  (List.range' (2 * N - 2) 2).foldl (kernelLastCol wf wl wr) s4

/-- One column of the CSC emission loop of CalculateKernel (lines 264-274):
push ind_p onto P_indptr, then for each stored entry push its value rescaled
by 2.0 onto P_data and its row onto P_indices, incrementing ind_p. -/
def emitStep (cols : List (List (Int × ℚ))) (acc : List ℚ × List Int × List Nat × Nat)
    (i : Nat) : List ℚ × List Int × List Nat × Nat :=
  let entries := cols.getD i []
  (acc.1 ++ entries.map (fun e => e.2 * 2),
   acc.2.1 ++ entries.map (fun e => e.1),
   acc.2.2.1 ++ [acc.2.2.2],
   acc.2.2.2 + entries.length)

/-- The CSC emission of CalculateKernel: iterate emitStep over the col_num
columns and append the final ind_p to P_indptr (line 275). -/
def emitCsc (cols : List (List (Int × ℚ))) (colNum : Nat) :
    List ℚ × List Int × List Nat :=
  let st := (List.range colNum).foldl (emitStep cols) ([], [], [], 0)
  (st.1, st.2.1, st.2.2.1 ++ [st.2.2.2])

/-- FemPosDeviationSqpOsqpInterface::CalculateKernel.  The glog assertions
CHECK_GT(num_of_points_, 2) and CHECK_EQ(col_num, num_of_pos_variables_) are
fatal; a failing check is modelled as none. -/
def CalculateKernel (N : Nat) (wf wl wr : ℚ) :
    Option (List ℚ × List Int × List Nat) :=
  if 2 < N then
    if (kernelColumns N wf wl wr).2 = 2 * N then
      some (emitCsc (kernelColumns N wf wl wr).1 (kernelColumns N wf wl wr).2)
    else none
  else none

/-- FemPosDeviationSqpOsqpInterface::CalculateOffset: q is resized to
num_of_variables (value-initialised to zero), position entries 2 i and
2 i + 1 get -2 wr times the reference coordinates, and the slack entries at
num_of_pos_variables + i get the slack weight. -/
def CalculateOffset (refs : List (ℚ × ℚ)) (N : Nat) (wr wslack : ℚ) : List ℚ :=
  let q0 := List.replicate (3 * N - 2) (0 : ℚ)
  let q1 := (List.range N).foldl (fun q i =>
    (q.set (2 * i) (-2 * wr * (refs.getD i (0, 0)).1)).set (2 * i + 1)
      (-2 * wr * (refs.getD i (0, 0)).2)) q0
  (List.range (N - 2)).foldl (fun q i => q.set (2 * N + i) wslack) q1

/-- The identity-matrix loop of CalculateAffineConstraint (lines 294-301):
for each variable push 1.0 onto A_data, the row index onto A_indices and
ind_A onto A_indptr; the fourth component is ind_A. -/
def affineIdentityStep (acc : List ℚ × List Nat × List Nat × Nat) (i : Nat) :
    List ℚ × List Nat × List Nat × Nat :=
  (acc.1 ++ [1], acc.2.1 ++ [i], acc.2.2.1 ++ [acc.2.2.2], acc.2.2.2 + 1)

/-- The full identity-matrix fold over the num_of_variables columns. -/
def affineIdentity (numVars : Nat) : List ℚ × List Nat × List Nat × Nat :=
  (List.range numVars).foldl affineIdentityStep ([], [], [], 0)

/-- Position-bound writes of CalculateAffineConstraint (lines 306-312): for
point i write ref plus/minus the bound radius at rows i*2 and i*2+1 of the
(lower, upper) pair. -/
def positionBoundsStep (refs : List (ℚ × ℚ)) (bnds : List ℚ)
    (s : List ℚ × List ℚ) (i : Nat) : List ℚ × List ℚ :=
  ((s.1.set (i * 2) ((refs.getD i (0, 0)).1 - bnds.getD i 0)).set (i * 2 + 1)
      ((refs.getD i (0, 0)).2 - bnds.getD i 0),
   (s.2.set (i * 2) ((refs.getD i (0, 0)).1 + bnds.getD i 0)).set (i * 2 + 1)
      ((refs.getD i (0, 0)).2 + bnds.getD i 0))

/-- Slack-bound writes of CalculateAffineConstraint (lines 314-318): the
loop index i itself is used as the row, so the writes land on rows
0 .. num_of_slack_variables - 1. -/
def slackBoundsStep (s : List ℚ × List ℚ) (i : Nat) : List ℚ × List ℚ :=
  (s.1.set i (-(10 ^ 20)), s.2.set i 1)

/-- FemPosDeviationSqpOsqpInterface::CalculateAffineConstraint, returning
(A_data, A_indices, A_indptr, lower_bounds, upper_bounds).  The bound
vectors are resized to num_of_constraints = 4 N - 4 (value-initialised to
zero) before the two write loops run. -/
def CalculateAffineConstraint (refs : List (ℚ × ℚ)) (bnds : List ℚ) (N : Nat) :
    List ℚ × List Nat × List Nat × List ℚ × List ℚ :=
  let a := affineIdentity (3 * N - 2)
  let pb := (List.range N).foldl (positionBoundsStep refs bnds)
    (List.replicate (4 * N - 4) (0 : ℚ), List.replicate (4 * N - 4) (0 : ℚ))
  let sb := (List.range (N - 2)).foldl slackBoundsStep pb
  (a.1, a.2.1, a.2.2.1 ++ [a.2.2.2], sb.1, sb.2)

/-- FemPosDeviationSqpOsqpInterface::UpdateAffineConstraint has an empty
body: it leaves every buffer unchanged. -/
def UpdateAffineConstraint (Adata : List ℚ) (Aindices Aindptr : List Nat)
    (lb ub : List ℚ) : List ℚ × List Nat × List Nat × List ℚ × List ℚ :=
  (Adata, Aindices, Aindptr, lb, ub)

/-- FemPosDeviationSqpOsqpInterface::SetPrimalWarmStart: resize to
num_of_variables (slack tail stays zero) and copy the reference coordinates
into the position entries. -/
def SetPrimalWarmStart (refs : List (ℚ × ℚ)) (N : Nat) : List ℚ :=
  (List.range N).foldl (fun pw i =>
      (pw.set (2 * i) (refs.getD i (0, 0)).1).set (2 * i + 1) (refs.getD i (0, 0)).2)
    (List.replicate (3 * N - 2) (0 : ℚ))

/-- The status acceptance logic of OptimizeWithOsqp (lines 353-363): a
negative status fails, then any status other than 1 or 2 fails, otherwise
the solve is accepted. -/
def osqpStatusAccepted (status : Int) : Bool :=
  if status < 0 then false
  else if status ≠ 1 ∧ status ≠ 2 then false
  else true

/-- Extraction of x_ and y_ from the primal solution in OptimizeWithOsqp
(lines 366-372): x_ at i reads index i*2, y_ reads i*2+1. -/
def extractSolution (sol : Nat → ℚ) (N : Nat) : List ℚ × List ℚ :=
  ((List.range N).map fun i => sol (i * 2), (List.range N).map fun i => sol (i * 2 + 1))

/-- The relative objective change computed at line 150:
std::abs((last_jvalue - obj_val) / last_jvalue). -/
def sqpEps (last cur : ℚ) : ℚ := |(last - cur) / last|

/-- Modelled from the spec wording for comparison with sqpEps: the relative
change in objective value written as eps = |prev_obj - cur_obj| / prev_obj. -/
def specRelChange (last cur : ℚ) : ℚ := |last - cur| / last

/-- The while loop of Solve (lines 131-164).  itr is threaded exactly as in
the source, which never increments it; k is the index of the next oracle
call; the returned list collects the primal warm-start vector passed to each
OSQP call made inside the loop; none means the fuel ran out with the loop
still running. -/
def sqpLoop (maxIter : Nat) (jtol : ℚ) (N : Nat) (oracle : Nat → OsqpResult)
    (pws Adata : List ℚ) (Ai Ap : List Nat) (lb ub : List ℚ)
    (itr : Nat) (last : ℚ) (k : Nat) (fuel : Nat) :
    Option (SolveOutcome × List (List ℚ)) :=
  match fuel with
  | 0 => none
  | Nat.succ fuel =>
    if itr < maxIter then
      match UpdateAffineConstraint Adata Ai Ap lb ub with
      | (Adata2, Ai2, Ap2, lb2, ub2) =>
        if osqpStatusAccepted (oracle k).status then
          if sqpEps last (oracle k).obj_val < jtol then
            some (SolveOutcome.success (extractSolution (oracle k).sol N).1
              (extractSolution (oracle k).sol N).2, [pws])
          else
            match sqpLoop maxIter jtol N oracle pws Adata2 Ai2 Ap2 lb2 ub2
                itr (oracle k).obj_val (k + 1) fuel with
            | none => none
            | some (out, tr) => some (out, pws :: tr)
        else some (SolveOutcome.solveFailed, [pws])
    else some (SolveOutcome.notConverged, [])

/-- FemPosDeviationSqpOsqpInterface::Solve.  The four sanity checks come
first; then the matrices are built (a fatal CHECK inside CalculateKernel is
checkFailure), the initial solve runs at oracle index 0, and the SQP loop
runs on the given fuel.  The returned list collects the primal warm-start
vector passed to every OSQP call, in call order. -/
def Solve (p : SqpParams) (oracle : Nat → OsqpResult) (fuel : Nat) :
    Option (SolveOutcome × List (List ℚ)) :=
  if p.ref_points.isEmpty then some (SolveOutcome.invalidInput, [])
  else if p.ref_points.length ≠ p.bounds_around_refs.length then
    some (SolveOutcome.invalidInput, [])
  else if p.ref_points.length < 3 then some (SolveOutcome.invalidInput, [])
  else if intMax < p.ref_points.length then some (SolveOutcome.invalidInput, [])
  else
    let N := p.ref_points.length
    if (CalculateKernel N p.weight_fem_pos_deviation p.weight_path_length
        p.weight_ref_deviation).isSome then
      let q := CalculateOffset p.ref_points N p.weight_ref_deviation
        p.weight_curvature_constraint_slack_var
      let ac := CalculateAffineConstraint p.ref_points p.bounds_around_refs N
      let pws := SetPrimalWarmStart p.ref_points N
      if osqpStatusAccepted (oracle 0).status then
        match sqpLoop p.sqp_max_iter p.sqp_jtol N oracle pws ac.1 ac.2.1 ac.2.2.1
            ac.2.2.2.1 ac.2.2.2.2 1 (oracle 0).obj_val 1 fuel with
        | none => none
        | some (out, tr) => some (out, pws :: tr)
      else some (SolveOutcome.solveFailed, [pws])
    else some (SolveOutcome.checkFailure, [])

/-- An oracle whose every call reports status 1 (solved), objective 0 and
the zero solution. -/
def trivOracle : Nat → OsqpResult := fun _ => ⟨1, 0, fun _ => 0⟩

/-- Three collinear reference points of the concrete spec scenario. -/
def refs3 : List (ℚ × ℚ) := [(0, 0), (1, 0), (2, 0)]

/-- Bound radius 0.1 for each of the three points. -/
def bnds3 : List ℚ := [1 / 10, 1 / 10, 1 / 10]

/-- Four collinear reference points (a size where CalculateKernel is sound). -/
def refs4 : List (ℚ × ℚ) := [(0, 0), (1, 0), (2, 0), (3, 0)]

/-- Bound radius 0.1 for each of the four points. -/
def bnds4 : List ℚ := [1 / 10, 1 / 10, 1 / 10, 1 / 10]

/-- The concrete spec scenario: three collinear points, radius 0.1, weights
w_fem = w_len = w_ref = 1, w_slack = 0.01. -/
def params3 : SqpParams := ⟨refs3, bnds3, 1, 1, 1, 1 / 100, 100, 1 / 100⟩

/-- Four collinear points, radius 0.1, unit weights, w_slack = 0.01,
sqp_max_iter = 10, tolerance 0.1. -/
def params4 : SqpParams := ⟨refs4, bnds4, 1, 1, 1, 1 / 100, 10, 1 / 10⟩

/-- Two reference points only: must fail input validation. -/
def params2 : SqpParams := ⟨[(0, 0), (1, 1)], [1 / 10, 1 / 10], 1, 1, 1, 1 / 100, 10, 1 / 10⟩

/-- An always-solved oracle whose objective value doubles on every call, so
the relative objective change is 1 forever and the tolerance is never met. -/
def c1Oracle : Nat → OsqpResult := fun k => ⟨1, 2 ^ k, fun _ => 0⟩

/-- An always-solved oracle returning the constant-5 solution on the initial
call and the constant-7 solution afterwards, with constant objective 1. -/
def c4Oracle : Nat → OsqpResult :=
  fun k => if k = 0 then ⟨1, 1, fun _ => 5⟩ else ⟨1, 1, fun _ => 7⟩

/-- Four points with sqp convergence tolerance 1/2. -/
def c5Params : SqpParams := ⟨refs4, bnds4, 1, 1, 1, 1 / 100, 10, 1 / 2⟩

/-- An always-solved oracle with objective -1 at the initial call and -3
afterwards: the objective sequence is negative, where the code formula
|(prev - cur)/prev| and the spec formula |prev - cur|/prev disagree. -/
def c5Oracle : Nat → OsqpResult :=
  fun k => if k = 0 then ⟨1, -1, fun _ => 0⟩ else ⟨1, -3, fun _ => 0⟩

end FemPosSmoother

namespace FemPosSmoother

/-- A fold whose step increases its counter component by a constant adds
that constant once per list element. -/
theorem foldl_snd_add {α β : Type} (f : α × Nat → β → α × Nat) (c : Nat)
    (hf : ∀ s a, (f s a).2 = s.2 + c) :
    ∀ (l : List β) (s : α × Nat), (l.foldl f s).2 = s.2 + c * l.length := by
  intro l
  induction l with
  | nil => intro s; simp
  | cons x xs ih =>
    intro s
    rw [List.foldl_cons, ih, hf, List.length_cons, Nat.mul_succ]
    ring

/-- col_num after the five column loops of CalculateKernel: 2 + 2 columns
for the first two points, two columns for each interior point, and 2 + 2
columns for the last two points, with Nat-truncated interior count. -/
theorem kernelColumns_colNum (N : Nat) (wf wl wr : ℚ) :
    (kernelColumns N wf wl wr).2 = 8 + 2 * ((N - 2) - 2) := by
  simp only [kernelColumns]
  rw [foldl_snd_add (kernelLastCol wf wl wr) 1 (fun s a => rfl),
    foldl_snd_add (kernelSecondLastCol wf wl wr) 1 (fun s a => rfl),
    foldl_snd_add (kernelInteriorPoint wf wl wr) 2 (fun s a => rfl),
    foldl_snd_add (kernelSecondCol wf wl wr) 1 (fun s a => rfl),
    foldl_snd_add (kernelEndCol wf wl wr) 1 (fun s a => rfl)]
  simp [List.length_range']
  omega

/-- The emission loop pushes one entry onto P_indptr per emitted column,
and one more after the loop. -/
theorem emitCsc_indptr_length (cols : List (List (Int × ℚ))) (colNum : Nat) :
    (emitCsc cols colNum).2.2.length = colNum + 1 := by
  have h : ∀ (l : List Nat) (acc : List ℚ × List Int × List Nat × Nat),
      (l.foldl (emitStep cols) acc).2.2.1.length = acc.2.2.1.length + l.length := by
    intro l
    induction l with
    | nil => intro acc; simp
    | cons x xs ih =>
      intro acc
      rw [List.foldl_cons, ih]
      simp [emitStep]
      omega
  simp only [emitCsc]
  rw [List.length_append, h]
  simp

/-- The identity-constraint fold produces all-ones data, consecutive row
indices, consecutive column pointers, and the final counter. -/
theorem affineIdentity_eq (n : Nat) :
    affineIdentity n = (List.replicate n 1, List.range n, List.range n, n) := by
  induction n with
  | zero => rfl
  | succ m ih =>
    simp only [affineIdentity, List.range_succ, List.foldl_append] at ih ⊢
    rw [ih]
    simp [affineIdentityStep, List.replicate_succ']

/-- The position-bound writes touch only rows i*2 and i*2+1 for written
points i; entries at a row beyond all of them are unchanged. -/
theorem positionBounds_getElem_high (refs : List (ℚ × ℚ)) (bnds : List ℚ) :
    ∀ (l : List Nat) (s : List ℚ × List ℚ) (j : Nat), (∀ i ∈ l, i * 2 + 1 < j) →
      (l.foldl (positionBoundsStep refs bnds) s).1[j]? = s.1[j]? ∧
      (l.foldl (positionBoundsStep refs bnds) s).2[j]? = s.2[j]? := by
  intro l
  induction l with
  | nil => intro s j h; exact ⟨rfl, rfl⟩
  | cons x xs ih =>
    intro s j h
    rw [List.foldl_cons]
    have hx := h x (List.mem_cons_self x xs)
    have hs := ih (positionBoundsStep refs bnds s x) j
      (fun i hi => h i (List.mem_cons_of_mem x hi))
    refine ⟨hs.1.trans ?_, hs.2.trans ?_⟩
    · simp only [positionBoundsStep]
      rw [List.getElem?_set_ne (by omega), List.getElem?_set_ne (by omega)]
    · simp only [positionBoundsStep]
      rw [List.getElem?_set_ne (by omega), List.getElem?_set_ne (by omega)]

/-- The slack-bound writes touch only rows 0 .. num_of_slack_variables - 1;
entries at a row beyond all of them are unchanged. -/
theorem slackBounds_getElem_high :
    ∀ (l : List Nat) (s : List ℚ × List ℚ) (j : Nat), (∀ i ∈ l, i < j) →
      (l.foldl slackBoundsStep s).1[j]? = s.1[j]? ∧
      (l.foldl slackBoundsStep s).2[j]? = s.2[j]? := by
  intro l
  induction l with
  | nil => intro s j h; exact ⟨rfl, rfl⟩
  | cons x xs ih =>
    intro s j h
    rw [List.foldl_cons]
    have hx := h x (List.mem_cons_self x xs)
    have hs := ih (slackBoundsStep s x) j (fun i hi => h i (List.mem_cons_of_mem x hi))
    refine ⟨hs.1.trans ?_, hs.2.trans ?_⟩
    · simp only [slackBoundsStep]
      rw [List.getElem?_set_ne (by omega)]
    · simp only [slackBoundsStep]
      rw [List.getElem?_set_ne (by omega)]

/-- Claim C2 (code_bug evidence): on the concrete spec scenario of exactly
three collinear reference points with radius 0.1 and weights 1, 1, 1, 0.01,
Solve does not succeed: CalculateKernel emits col_num = 8 columns instead
of 2 N = 6 (the second-point loop and the second-from-last loop both cover
columns 2 and 3 when N = 3), the CHECK_EQ invariant fails and the request
aborts before any solver interaction. -/
theorem three_point_kernel_check_aborts :
    (kernelColumns 3 1 1 1).2 = 8 ∧
    Solve params3 trivOracle 5 = some (SolveOutcome.checkFailure, []) := by
  constructor
  · decide
  · decide

/-- Claim C3 (code_bug evidence): after CalculateAffineConstraint on the
three-point scenario, the slack write loop lands on row 0 instead of the
slack row: row 0 holds (-1e20, 1.0) rather than the box (-0.1, 0.1) of the
first point, and the actual slack row 6 holds (0, 0) rather than
(-1e20, 1.0). -/
theorem slack_bounds_overwrite_position_rows :
    ((CalculateAffineConstraint refs3 bnds3 3).2.2.2.1)[0]? = some (-(10 ^ 20) : ℚ) ∧
    ((CalculateAffineConstraint refs3 bnds3 3).2.2.2.2)[0]? = some (1 : ℚ) ∧
    ((CalculateAffineConstraint refs3 bnds3 3).2.2.2.2)[0]? ≠ some ((0 : ℚ) + 1 / 10) ∧
    ((CalculateAffineConstraint refs3 bnds3 3).2.2.2.1)[6]? = some (0 : ℚ) ∧
    ((CalculateAffineConstraint refs3 bnds3 3).2.2.2.2)[6]? = some (0 : ℚ) := by
  norm_num [CalculateAffineConstraint, positionBoundsStep, slackBoundsStep, affineIdentity,
    affineIdentityStep, refs3, bnds3, List.range_succ, List.getD, List.replicate_succ]

/-- Claim C7: every failing sanity check of Solve returns failure with an
empty call trace, before any matrix is built or any solver call is made. -/
theorem input_validation_rejects (p : SqpParams) (oracle : Nat → OsqpResult) (fuel : Nat)
    (h : p.ref_points = [] ∨ p.ref_points.length ≠ p.bounds_around_refs.length ∨
      p.ref_points.length < 3 ∨ intMax < p.ref_points.length) :
    Solve p oracle fuel = some (SolveOutcome.invalidInput, []) := by
  by_cases h1 : p.ref_points.isEmpty = true
  · simp only [Solve, if_pos h1]
  · by_cases h2 : p.ref_points.length ≠ p.bounds_around_refs.length
    · simp only [Solve, if_neg h1, if_pos h2]
    · by_cases h3 : p.ref_points.length < 3
      · simp only [Solve, if_neg h1, if_neg h2, if_pos h3]
      · by_cases h4 : intMax < p.ref_points.length
        · simp only [Solve, if_neg h1, if_neg h2, if_neg h3, if_pos h4]
        · exfalso
          rcases h with h | h | h | h
          · exact h1 (by simp [h])
          · exact h2 h
          · exact h3 h
          · exact h4 h

/-- Witness for C7: an input of exactly two reference points fails the
sanity checks with no solver interaction. -/
theorem input_validation_rejects_witness :
    Solve params2 trivOracle 5 = some (SolveOutcome.invalidInput, []) :=
  input_validation_rejects params2 trivOracle 5 (Or.inr (Or.inr (Or.inl (by decide))))

/-- Claim C8: OptimizeWithOsqp accepts a solve exactly when the status
value is 1 (solved) or 2 (solved inaccurate); every negative status and
every other non-negative status is rejected. -/
theorem osqp_status_accepted_iff (status : Int) :
    osqpStatusAccepted status = true ↔ (status = 1 ∨ status = 2) := by
  unfold osqpStatusAccepted
  split_ifs with h1 h2 <;> simp_all <;> omega

/-- Claim C9: UpdateAffineConstraint has an empty body, so it returns the
constraint-matrix values, row indices, column pointers, and both bound
vectors exactly unchanged; each SQP iteration therefore pushes the identical
constraint data back into the solver. -/
theorem update_affine_constraint_identity (Adata : List ℚ) (Aindices Aindptr : List Nat)
    (lb ub : List ℚ) :
    UpdateAffineConstraint Adata Aindices Aindptr lb ub = (Adata, Aindices, Aindptr, lb, ub) :=
  rfl

/-- Claim C10: in the bound vectors built by CalculateAffineConstraint, every
row from 2 N up to 4 N - 5 keeps its value-initialised 0.0 in both the lower
and the upper bound vector, and the constraint matrix is the identity over
the first 3 N - 2 rows; the identity row of each slack variable therefore
pins that slack variable to exactly zero. -/
theorem slack_rows_forced_zero (N : Nat) (refs : List (ℚ × ℚ)) (bnds : List ℚ) (j : Nat)
    (hN : 3 ≤ N) (hjl : 2 * N ≤ j) (hju : j ≤ 4 * N - 5) :
    ((CalculateAffineConstraint refs bnds N).2.2.2.1)[j]? = some 0 ∧
    ((CalculateAffineConstraint refs bnds N).2.2.2.2)[j]? = some 0 ∧
    (CalculateAffineConstraint refs bnds N).1 = List.replicate (3 * N - 2) 1 ∧
    (CalculateAffineConstraint refs bnds N).2.1 = List.range (3 * N - 2) ∧
    (CalculateAffineConstraint refs bnds N).2.2.1 = List.range (3 * N - 2 + 1) := by
  have hpos : ∀ i ∈ List.range N, i * 2 + 1 < j := by
    intro i hi
    rw [List.mem_range] at hi
    omega
  have hsl : ∀ i ∈ List.range (N - 2), i < j := by
    intro i hi
    rw [List.mem_range] at hi
    omega
  have hrep : (List.replicate (4 * N - 4) (0 : ℚ))[j]? = some 0 := by
    rw [List.getElem?_replicate, if_pos (by omega)]
  have h1 := positionBounds_getElem_high refs bnds (List.range N)
    (List.replicate (4 * N - 4) 0, List.replicate (4 * N - 4) 0) j hpos
  have h2 := slackBounds_getElem_high (List.range (N - 2))
    ((List.range N).foldl (positionBoundsStep refs bnds)
      (List.replicate (4 * N - 4) 0, List.replicate (4 * N - 4) 0)) j hsl
  simp only [CalculateAffineConstraint, affineIdentity_eq]
  refine ⟨?_, ?_, trivial, trivial, ?_⟩
  · rw [h2.1, h1.1]
    exact hrep
  · rw [h2.2, h1.2]
    exact hrep
  · rw [← List.range_succ]

/-- Witness for C10 at the three-point input, slack identity row j = 6. -/
theorem slack_rows_forced_zero_witness :
    ((CalculateAffineConstraint refs3 bnds3 3).2.2.2.1)[6]? = some 0 ∧
    ((CalculateAffineConstraint refs3 bnds3 3).2.2.2.2)[6]? = some 0 ∧
    (CalculateAffineConstraint refs3 bnds3 3).1 = List.replicate (3 * 3 - 2) 1 ∧
    (CalculateAffineConstraint refs3 bnds3 3).2.1 = List.range (3 * 3 - 2) ∧
    (CalculateAffineConstraint refs3 bnds3 3).2.2.1 = List.range (3 * 3 - 2 + 1) :=
  slack_rows_forced_zero 3 refs3 bnds3 6 (by norm_num) (by norm_num) (by norm_num)

/-- Counterexample for C6 as stated: at N = 3 the emitted-column counter is
8, not 2 N = 6 (the CHECK_EQ invariant fails), and at N = 4, where the
invariant does hold, the column-pointer array of CalculateKernel has
2 N + 1 = 9 entries, not 2 N = 8. -/
theorem kernel_colptr_count_counterexample :
    (kernelColumns 3 1 1 1).2 = 8 ∧ (kernelColumns 3 1 1 1).2 ≠ 2 * 3 ∧
    (CalculateKernel 4 1 1 1).map (fun c => c.2.2.length) = some 9 ∧ (9 : Nat) ≠ 2 * 4 := by
  refine ⟨by decide, by decide, by decide, by decide⟩

/-- Claim C6 amended: for every N ≥ 4 the emitted-column counter col_num of
CalculateKernel equals 2 N (the checked invariant holds), and the emitted
column-pointer array has 2 N + 1 entries: one per PositionVariable column
plus the terminating pointer. -/
theorem kernel_colptr_count (N : Nat) (wf wl wr : ℚ) (h : 4 ≤ N) :
    (kernelColumns N wf wl wr).2 = 2 * N ∧
    (CalculateKernel N wf wl wr).map (fun c => c.2.2.length) = some (2 * N + 1) := by
  have hc : (kernelColumns N wf wl wr).2 = 2 * N := by
    rw [kernelColumns_colNum]
    omega
  refine ⟨hc, ?_⟩
  unfold CalculateKernel
  rw [if_pos (by omega : 2 < N), if_pos hc]
  simp [emitCsc_indptr_length, hc]

/-- Witness for the amended C6 at N = 4 with unit weights. -/
theorem kernel_colptr_count_witness :
    (kernelColumns 4 1 1 1).2 = 2 * 4 ∧
    (CalculateKernel 4 1 1 1).map (fun c => c.2.2.length) = some (2 * 4 + 1) :=
  kernel_colptr_count 4 1 1 1 (by norm_num)

/-- The relative objective change between consecutive calls of the c1Oracle
is always exactly 1. -/
theorem sqpEps_two_pow (k : Nat) : sqpEps ((2 : ℚ) ^ k) ((2 : ℚ) ^ (k + 1)) = 1 := by
  have h2 : ((2 : ℚ) ^ k) ≠ 0 := pow_ne_zero k two_ne_zero
  have hs : (2 : ℚ) ^ k - (2 : ℚ) ^ (k + 1) = -((2 : ℚ) ^ k) := by
    rw [pow_succ]
    ring
  unfold sqpEps
  rw [hs, neg_div, div_self h2, abs_neg, abs_one]

/-- Against c1Oracle, the SQP loop of Solve never returns: itr stays 1,
every solve is accepted, and the relative change never drops below 1/10. -/
theorem c1_sqpLoop_none :
    ∀ (fuel k : Nat) (pws Adata : List ℚ) (Ai Ap : List Nat) (lb ub : List ℚ),
      sqpLoop 10 (1 / 10) 4 c1Oracle pws Adata Ai Ap lb ub 1 ((2 : ℚ) ^ k) (k + 1) fuel =
        none := by
  intro fuel
  induction fuel with
  | zero => intro k pws Adata Ai Ap lb ub; rfl
  | succ n ih =>
    intro k pws Adata Ai Ap lb ub
    have hobj : (c1Oracle (k + 1)).obj_val = (2 : ℚ) ^ (k + 1) := rfl
    have hstat : osqpStatusAccepted (c1Oracle (k + 1)).status = true := rfl
    have heps : ¬ (sqpEps ((2 : ℚ) ^ k) ((2 : ℚ) ^ (k + 1)) < 1 / 10) := by
      rw [sqpEps_two_pow]
      norm_num
    simp only [sqpLoop, UpdateAffineConstraint, hobj, hstat, if_true]
    rw [if_pos (by norm_num : (1 : Nat) < 10), if_neg heps, ih (k + 1) pws Adata Ai Ap lb ub]

/-- Claim C1 (code_bug evidence): on a validated four-point input and a
solver that always reports solved but whose objective keeps halving its
relative precision away (objective 2^k at call k), Solve never terminates,
for any amount of fuel: the loop counter itr is never incremented, so the
condition itr < sqp_max_iter never exhausts the iteration budget. -/
theorem sqp_loop_never_terminates (fuel : Nat) :
    Solve params4 c1Oracle fuel = none := by
  have h := c1_sqpLoop_none fuel 0 (SetPrimalWarmStart refs4 4)
    (CalculateAffineConstraint refs4 bnds4 4).1
    (CalculateAffineConstraint refs4 bnds4 4).2.1
    (CalculateAffineConstraint refs4 bnds4 4).2.2.1
    (CalculateAffineConstraint refs4 bnds4 4).2.2.2.1
    (CalculateAffineConstraint refs4 bnds4 4).2.2.2.2
  show (match sqpLoop 10 (1 / 10) 4 c1Oracle (SetPrimalWarmStart refs4 4)
      (CalculateAffineConstraint refs4 bnds4 4).1
      (CalculateAffineConstraint refs4 bnds4 4).2.1
      (CalculateAffineConstraint refs4 bnds4 4).2.2.1
      (CalculateAffineConstraint refs4 bnds4 4).2.2.2.1
      (CalculateAffineConstraint refs4 bnds4 4).2.2.2.2 1 ((2 : ℚ) ^ 0) (0 + 1) fuel with
    | none => none
    | some (out, tr) => some (out, SetPrimalWarmStart refs4 4 :: tr)) = none
  rw [h]

/-- Every warm-start vector passed to an OSQP call inside the SQP loop is
the pws buffer the loop was entered with. -/
theorem sqpLoop_trace_all_pws :
    ∀ (fuel : Nat) {maxIter : Nat} {jtol : ℚ} {N : Nat} {oracle : Nat → OsqpResult}
      {pws Adata : List ℚ} {Ai Ap : List Nat} {lb ub : List ℚ} {itr : Nat} {last : ℚ}
      {k : Nat} {out : SolveOutcome} {tr : List (List ℚ)},
      sqpLoop maxIter jtol N oracle pws Adata Ai Ap lb ub itr last k fuel = some (out, tr) →
      ∀ w ∈ tr, w = pws := by
  intro fuel
  induction fuel with
  | zero =>
    intro maxIter jtol N oracle pws Adata Ai Ap lb ub itr last k out tr h
    exact absurd h (by simp [sqpLoop])
  | succ n ih =>
    intro maxIter jtol N oracle pws Adata Ai Ap lb ub itr last k out tr h
    simp only [sqpLoop, UpdateAffineConstraint] at h
    split_ifs at h with h1 h2 h3
    · injection h with h'
      injection h' with ho ht
      subst ht
      intro w hw
      rw [List.mem_singleton] at hw
      exact hw
    · split at h
      · exact absurd h (by simp)
      · rename_i out2tr2 heq
        injection h with h'
        injection h' with ho ht
        subst ht
        intro w hw
        rcases List.mem_cons.mp hw with hw1 | hw2
        · exact hw1
        · exact ih heq w hw2
    · injection h with h'
      injection h' with ho ht
      subst ht
      intro w hw
      rw [List.mem_singleton] at hw
      exact hw
    · injection h with h'
      injection h' with ho ht
      subst ht
      intro w hw
      simp at hw

/-- Claim C4 amended: in every run of Solve, every primal warm-start vector
passed to an OSQP call, in the initial solve and in every loop iteration
alike, equals the initial warm-start vector built from the reference points
by SetPrimalWarmStart; it is never replaced by the previous solution. -/
theorem warm_start_always_initial (p : SqpParams) (oracle : Nat → OsqpResult) (fuel : Nat)
    (out : SolveOutcome) (tr : List (List ℚ))
    (h : Solve p oracle fuel = some (out, tr)) :
    ∀ w ∈ tr, w = SetPrimalWarmStart p.ref_points p.ref_points.length := by
  simp only [Solve] at h
  split_ifs at h with h1 h2 h3 h4 h5 h6
  · injection h with h'
    injection h' with ho ht
    subst ht
    intro w hw
    simp at hw
  · injection h with h'
    injection h' with ho ht
    subst ht
    intro w hw
    simp at hw
  · injection h with h'
    injection h' with ho ht
    subst ht
    intro w hw
    simp at hw
  · injection h with h'
    injection h' with ho ht
    subst ht
    intro w hw
    simp at hw
  · split at h
    · exact absurd h (by simp)
    · rename_i out2tr2 heq
      injection h with h'
      injection h' with ho ht
      subst ht
      intro w hw
      rcases List.mem_cons.mp hw with hw1 | hw2
      · exact hw1
      · exact sqpLoop_trace_all_pws fuel heq w hw2
  · injection h with h'
    injection h' with ho ht
    subst ht
    intro w hw
    rw [List.mem_singleton] at hw
    exact hw
  · injection h with h'
    injection h' with ho ht
    subst ht
    intro w hw
    simp at hw

/-- Counterexample for C4 as stated: on the four-point input with c4Oracle,
the initial solve returns the constant-5 solution, yet the warm start passed
to the loop iteration that follows is still the reference-point vector
[0,0,1,0,2,0,3,0,0,0], not that previous solution. -/
theorem warm_start_is_not_previous_solution :
    Solve params4 c4Oracle 5 =
      some (SolveOutcome.success [7, 7, 7, 7] [7, 7, 7, 7],
        [[0, 0, 1, 0, 2, 0, 3, 0, 0, 0], [0, 0, 1, 0, 2, 0, 3, 0, 0, 0]]) ∧
    ((List.range 10).map fun j => (c4Oracle 0).sol j) = List.replicate 10 5 ∧
    ([0, 0, 1, 0, 2, 0, 3, 0, 0, 0] : List ℚ) ≠ List.replicate 10 5 := by
  refine ⟨?_, ?_, ?_⟩
  · norm_num [Solve, sqpLoop, params4, refs4, bnds4, c4Oracle, UpdateAffineConstraint,
      osqpStatusAccepted, sqpEps, extractSolution, SetPrimalWarmStart, CalculateKernel,
      kernelColumns, kernelEndCol, kernelSecondCol, kernelInteriorPoint, kernelInteriorCol,
      kernelSecondLastCol, kernelLastCol, appendAt, intMax,
      List.range_succ, List.range', List.getD, List.replicate_succ]
  · norm_num [c4Oracle, List.range_succ, List.replicate_succ]
  · norm_num [List.replicate_succ]

/-- Witness for the amended C4: the vector [0,0,1,0,2,0,3,0,0,0] appears in
the warm-start trace of a concrete run and equals the initial warm start. -/
theorem warm_start_always_initial_witness :
    ([0, 0, 1, 0, 2, 0, 3, 0, 0, 0] : List ℚ) =
      SetPrimalWarmStart params4.ref_points params4.ref_points.length :=
  warm_start_always_initial params4 c4Oracle 5
    (SolveOutcome.success [7, 7, 7, 7] [7, 7, 7, 7])
    [[0, 0, 1, 0, 2, 0, 3, 0, 0, 0], [0, 0, 1, 0, 2, 0, 3, 0, 0, 0]]
    (by norm_num [Solve, sqpLoop, params4, refs4, bnds4, c4Oracle, UpdateAffineConstraint,
      osqpStatusAccepted, sqpEps, extractSolution, SetPrimalWarmStart, CalculateKernel,
      kernelColumns, kernelEndCol, kernelSecondCol, kernelInteriorPoint, kernelInteriorCol,
      kernelSecondLastCol, kernelLastCol, appendAt, intMax,
      List.range_succ, List.range', List.getD, List.replicate_succ])
    [0, 0, 1, 0, 2, 0, 3, 0, 0, 0] (List.mem_cons_self _ _)

/-- A success exit of the SQP loop always carries a non-empty warm-start
trace: the converging iteration itself made an OSQP call. -/
theorem sqpLoop_success_trace_ne_nil :
    ∀ (fuel : Nat) {maxIter : Nat} {jtol : ℚ} {N : Nat} {oracle : Nat → OsqpResult}
      {pws Adata : List ℚ} {Ai Ap : List Nat} {lb ub : List ℚ} {itr : Nat} {last : ℚ}
      {k : Nat} {xs ys : List ℚ} {tr : List (List ℚ)},
      sqpLoop maxIter jtol N oracle pws Adata Ai Ap lb ub itr last k fuel =
        some (SolveOutcome.success xs ys, tr) → tr ≠ [] := by
  intro fuel
  induction fuel with
  | zero =>
    intro maxIter jtol N oracle pws Adata Ai Ap lb ub itr last k xs ys tr h
    exact absurd h (by simp [sqpLoop])
  | succ n ih =>
    intro maxIter jtol N oracle pws Adata Ai Ap lb ub itr last k xs ys tr h
    simp only [sqpLoop, UpdateAffineConstraint] at h
    split_ifs at h with h1 h2 h3
    · injection h with h'
      injection h' with ho ht
      subst ht
      simp
    · split at h
      · exact absurd h (by simp)
      · injection h with h'
        injection h' with ho ht
        subst ht
        simp
    · injection h with h'
      injection h' with ho ht
      exact absurd ho (by simp)
    · injection h with h'
      injection h' with ho ht
      exact absurd ho (by simp)

/-- Claim C5 amended: the relative objective change the loop computes is
|prev_obj - cur_obj| / |prev_obj| (the absolute value of the whole ratio,
so also of its sign when prev_obj is negative), and one iteration of the
SQP loop returns success carrying the current call's solution exactly when
that computed value is below the tolerance. -/
theorem relative_change_and_convergence (maxIter : Nat) (jtol : ℚ) (N : Nat)
    (oracle : Nat → OsqpResult) (pws Adata : List ℚ) (Ai Ap : List Nat) (lb ub : List ℚ)
    (last : ℚ) (k fuel : Nat) (hiter : 1 < maxIter)
    (hstat : osqpStatusAccepted (oracle k).status = true) :
    sqpEps last (oracle k).obj_val = |last - (oracle k).obj_val| / |last| ∧
    (sqpLoop maxIter jtol N oracle pws Adata Ai Ap lb ub 1 last k (fuel + 1) =
        some (SolveOutcome.success (extractSolution (oracle k).sol N).1
          (extractSolution (oracle k).sol N).2, [pws]) ↔
      sqpEps last (oracle k).obj_val < jtol) := by
  constructor
  · unfold sqpEps
    rw [abs_div]
  · by_cases heps : sqpEps last (oracle k).obj_val < jtol
    · simp only [sqpLoop, UpdateAffineConstraint]
      rw [if_pos hiter, if_pos hstat, if_pos heps]
      simp [heps]
    · simp only [sqpLoop, UpdateAffineConstraint]
      rw [if_pos hiter, if_pos hstat, if_neg heps]
      constructor
      · intro hcontra
        split at hcontra
        · exact absurd hcontra (by simp)
        · rename_i out2tr2 heq
          injection hcontra with h'
          injection h' with ho ht
          injection ht with ht1 ht2
          subst ho
          subst ht2
          exact absurd rfl (sqpLoop_success_trace_ne_nil fuel heq)
      · intro hc
        exact absurd hc heps

/-- Witness for the amended C5 at a concrete loop state: with the trivial
oracle (objective 0), the computed relative change is 0 and one loop step
returns success. -/
theorem relative_change_and_convergence_witness :
    sqpEps 0 (trivOracle 0).obj_val = |0 - (trivOracle 0).obj_val| / |(0 : ℚ)| ∧
    (sqpLoop 2 1 3 trivOracle [] [] [] [] [] [] 1 0 0 (0 + 1) =
        some (SolveOutcome.success (extractSolution (trivOracle 0).sol 3).1
          (extractSolution (trivOracle 0).sol 3).2, [[]]) ↔
      sqpEps 0 (trivOracle 0).obj_val < 1) :=
  relative_change_and_convergence 2 1 3 trivOracle [] [] [] [] [] [] 0 0 0
    (by norm_num) rfl

/-- Counterexample for C5 as stated: with a negative objective sequence
(-1 then -3) and tolerance 1/2, the spec formula |prev - cur| / prev
evaluates to -2, which is below the tolerance, yet the code computes
|(prev - cur)/prev| = 2 and keeps iterating: the run makes a third solver
call before converging instead of stopping at the second. -/
theorem relative_change_formula_counterexample :
    sqpEps (-1) (-3) = 2 ∧ specRelChange (-1) (-3) = -2 ∧
    specRelChange (-1) (-3) < c5Params.sqp_jtol ∧
    Solve c5Params c5Oracle 9 =
      some (SolveOutcome.success [0, 0, 0, 0] [0, 0, 0, 0],
        [[0, 0, 1, 0, 2, 0, 3, 0, 0, 0], [0, 0, 1, 0, 2, 0, 3, 0, 0, 0],
         [0, 0, 1, 0, 2, 0, 3, 0, 0, 0]]) := by
  refine ⟨by norm_num [sqpEps], by norm_num [specRelChange],
    by norm_num [specRelChange, c5Params], ?_⟩
  norm_num [Solve, sqpLoop, c5Params, refs4, bnds4, c5Oracle, UpdateAffineConstraint,
    osqpStatusAccepted, sqpEps, extractSolution, SetPrimalWarmStart, CalculateKernel,
    kernelColumns, kernelEndCol, kernelSecondCol, kernelInteriorPoint, kernelInteriorCol,
    kernelSecondLastCol, kernelLastCol, appendAt, intMax,
    List.range_succ, List.range', List.getD, List.replicate_succ]

end FemPosSmoother
